import Mathlib

/-!
Shallow embedding of the trusted-cluster control plane
(`lib/auth/trustedcluster.go`).

The auth server's backend dependencies (the CA store, the Presence store,
the reverse-tunnel registry, the token validator, the audit emitter) are
external collaborators of the file under verification; they are modelled
here as operations on an explicit `BackendState`, following the interface
contracts stated in the specification.  The validation RPC performed over
the network is modelled as an oracle function (`Remote`) passed to every
operation that performs the outbound handshake.  Machine time is a `Nat`.

Every function translated from the Go source keeps its source name
(Go methods on `AuthServer` become functions taking the `BackendState`).
Functions whose Go bodies are not part of the verified slice carry a
doc comment starting with `Modelled from the spec:`.
-/

namespace Teleport

/-- Transport-independent error kinds, mirroring the `trace` error
taxonomy used by the source (`NotFound`, `AlreadyExists`, `BadParameter`,
`AccessDenied`, aggregates, and a catch-all). Each carries its message. -/
inductive Err where
  | notFound (msg : String)
  | alreadyExists (msg : String)
  | badParameter (msg : String)
  | accessDenied (msg : String)
  | aggregate (errs : List Err)
  | other (msg : String)

/-- Mirrors `trace.IsNotFound`. -/
def Err.isNotFound : Err → Bool
  | .notFound _ => true
  | _ => false

/-- Crude analogue of the Go `error.Error()` text, used only for the
`x509` substring test in `establishTrust`. -/
def Err.message : Err → String
  | .notFound m => m
  | .alreadyExists m => m
  | .badParameter m => m
  | .accessDenied m => m
  | .aggregate _ => "aggregate error"
  | .other m => m

/-- Leading-match test on character lists, the base of the substring
test below. -/
def leadsWith : List Char → List Char → Bool
  | [], _ => true
  | _ :: _, [] => false
  | p :: ps, c :: cs => p == c && leadsWith ps cs

/-- Occurrence test of `pat` at any position of the character list. -/
def containsChars (pat : List Char) : List Char → Bool
  | [] => leadsWith pat []
  | c :: cs => leadsWith pat (c :: cs) || containsChars pat cs

/-- Substring test (`strings.Contains`). -/
def containsSubstring (s pat : String) : Bool :=
  containsChars pat.data s.data

/-- Mirrors `trace.NewAggregate`: nil when no errors were collected,
otherwise a single aggregate error. -/
def NewAggregate (errs : List Err) : Option Err :=
  match errs with
  | [] => none
  | _ => some (.aggregate errs)

/-- Tolerance helper for the repeated Go pattern
`if err != nil && !trace.IsNotFound(err)`: keeps only a non-not-found
error. -/
def nonNotFound : Option Err → Option Err
  | some e => if e.isNotFound then none else some e
  | none => none

/-- The two certificate-authority types used by the trust plumbing. -/
inductive CertAuthType where
  | hostCA
  | userCA
deriving DecidableEq, Repr

/-- One `{remote, local[]}` entry of a role map. -/
structure RoleMapping where
  remote : String
  localRoles : List String
deriving DecidableEq, Repr

/-- A TLS key pair of a CA; only the cluster name embedded in the
certificate subject is relevant to the verified code
(`tlsca.ParseCertificatePEM` / `tlsca.ClusterName`).  `none` stands for
an unparsable certificate. -/
structure TLSKeyPair where
  certClusterName : Option String
deriving DecidableEq, Repr

/-- A certificate authority resource.  `domainName` is the resource name
(`GetName`/`SetName`); `clusterName` is the self-declared cluster name
(`GetClusterName`). -/
structure CertAuthority where
  caType : CertAuthType
  domainName : String
  clusterName : String
  roles : List String
  roleMap : List RoleMapping
  tlsKeyPairs : List TLSKeyPair
deriving DecidableEq, Repr

/-- The `(type, domain_name)` key of a CA (`services.CertAuthID`). -/
structure CertAuthID where
  caType : CertAuthType
  domainName : String
deriving DecidableEq, Repr

/-- Mirrors `CertAuthorityV2.GetID`. -/
def CertAuthority.getID (ca : CertAuthority) : CertAuthID :=
  { caType := ca.caType, domainName := ca.domainName }

/-- Mirrors `SetName` on a CA resource: renames the stored resource. -/
def CertAuthority.setName (ca : CertAuthority) (n : String) : CertAuthority :=
  { ca with domainName := n }

/-- Modelled from the spec: the CA resource accessor `AddRole` (its Go
body lives outside the verified slice).  Appends the role when it is not
already present. -/
def CertAuthority.addRole (ca : CertAuthority) (r : String) : CertAuthority :=
  if r ∈ ca.roles then ca else { ca with roles := ca.roles ++ [r] }

/-- The administrator-owned TrustedCluster descriptor. -/
structure TrustedCluster where
  name : String
  enabled : Bool
  token : String
  proxyAddress : String
  reverseTunnelAddress : String
  roles : List String
  roleMap : List RoleMapping
deriving DecidableEq, Repr

/-- A reverse-tunnel record (`services.ReverseTunnel`). -/
structure ReverseTunnel where
  name : String
  dialAddrs : List String
deriving DecidableEq, Repr

/-- Kinds of audit events emitted by the verified slice. -/
inductive AuditKind where
  | trustedClusterCreate
  | trustedClusterDelete
deriving DecidableEq, Repr

/-- An emitted audit event with the acting user. -/
structure AuditEvent where
  kind : AuditKind
  user : String
deriving DecidableEq, Repr

/-- Modelled from the spec: the combined backend visible to the auth
server through its facades — the CA store (active and deactivated
collections), the Presence store of TrustedCluster descriptors, the
reverse-tunnel registry, the local role store, the token store and the
audit log.  `domainName` is the local cluster name
(`GetDomainName` / `GetClusterName`). -/
structure BackendState where
  domainName : String
  activeCAs : List CertAuthority
  inactiveCAs : List CertAuthority
  trustedClusters : List TrustedCluster
  reverseTunnels : List ReverseTunnel
  localRoles : List String
  tokens : List (String × List String)
  auditEvents : List AuditEvent
deriving DecidableEq, Repr

/-- Modelled from the spec: CA store facade `GetCertAuthority(id, _)` —
reads the active collection; not-found when absent. -/
def GetCertAuthority (s : BackendState) (id : CertAuthID) : Except Err CertAuthority :=
  match s.activeCAs.find? (fun ca => decide (ca.getID = id)) with
  | some ca => .ok ca
  | none => .error (.notFound "cert authority not found")

/-- Modelled from the spec: CA store facade `ActivateCertAuthority(id)` —
moves a CA from the deactivated collection to the active one; not-found
when there is nothing to activate (this is the behaviour §4.4 of the
spec relies on when the CAs are already active). -/
def ActivateCertAuthority (s : BackendState) (id : CertAuthID) : Option Err × BackendState :=
  match s.inactiveCAs.find? (fun ca => decide (ca.getID = id)) with
  | some ca =>
      (none,
       { s with
          inactiveCAs := s.inactiveCAs.filter (fun c => !decide (c.getID = id)),
          activeCAs := (s.activeCAs.filter (fun c => !decide (c.getID = id))) ++ [ca] })
  | none => (some (.notFound "can not activate cert authority"), s)

/-- Modelled from the spec: CA store facade `DeactivateCertAuthority(id)`
— moves a CA from the active collection to the deactivated one;
not-found when there is nothing to deactivate. -/
def DeactivateCertAuthority (s : BackendState) (id : CertAuthID) : Option Err × BackendState :=
  match s.activeCAs.find? (fun ca => decide (ca.getID = id)) with
  | some ca =>
      (none,
       { s with
          activeCAs := s.activeCAs.filter (fun c => !decide (c.getID = id)),
          inactiveCAs := (s.inactiveCAs.filter (fun c => !decide (c.getID = id))) ++ [ca] })
  | none => (some (.notFound "can not deactivate cert authority"), s)

/-- Modelled from the spec: CA store facade `CreateCertAuthority(ca)` —
create-only insert into the active collection; already-exists on a key
collision. -/
def CreateCertAuthority (s : BackendState) (ca : CertAuthority) : Option Err × BackendState :=
  if s.activeCAs.any (fun c => decide (c.getID = ca.getID)) then
    (some (.alreadyExists "cert authority already exists"), s)
  else
    (none, { s with activeCAs := s.activeCAs ++ [ca] })

/-- Modelled from the spec: CA store facade `DeleteCertAuthority(id)` —
removes the record (from both collections); not-found when absent. -/
def DeleteCertAuthority (s : BackendState) (id : CertAuthID) : Option Err × BackendState :=
  if s.activeCAs.any (fun c => decide (c.getID = id)) ||
     s.inactiveCAs.any (fun c => decide (c.getID = id)) then
    (none,
     { s with
        activeCAs := s.activeCAs.filter (fun c => !decide (c.getID = id)),
        inactiveCAs := s.inactiveCAs.filter (fun c => !decide (c.getID = id)) })
  else
    (some (.notFound "cert authority not found"), s)

/-- Modelled from the spec: tunnel registry facade `UpsertReverseTunnel`. -/
def UpsertReverseTunnel (s : BackendState) (rt : ReverseTunnel) : BackendState :=
  { s with
      reverseTunnels :=
        (s.reverseTunnels.filter (fun r => !decide (r.name = rt.name))) ++ [rt] }

/-- Modelled from the spec: tunnel registry facade
`DeleteReverseTunnel(name)`; not-found when absent. -/
def DeleteReverseTunnel (s : BackendState) (name : String) : Option Err × BackendState :=
  if s.reverseTunnels.any (fun r => decide (r.name = name)) then
    (none, { s with reverseTunnels := s.reverseTunnels.filter (fun r => !decide (r.name = name)) })
  else
    (some (.notFound "reverse tunnel not found"), s)

/-- Modelled from the spec: Presence facade `UpsertTrustedCluster` —
stores the descriptor under its name, replacing any previous record, and
returns the stored descriptor. -/
def PresenceUpsertTrustedCluster (s : BackendState) (tc : TrustedCluster) :
    TrustedCluster × BackendState :=
  (tc,
   { s with
      trustedClusters :=
        (s.trustedClusters.filter (fun t => !decide (t.name = tc.name))) ++ [tc] })

/-- Modelled from the spec: Presence facade `DeleteTrustedCluster(name)`;
not-found when absent. -/
def PresenceDeleteTrustedCluster (s : BackendState) (name : String) :
    Option Err × BackendState :=
  if s.trustedClusters.any (fun t => decide (t.name = name)) then
    (none, { s with trustedClusters := s.trustedClusters.filter (fun t => !decide (t.name = name)) })
  else
    (some (.notFound "trusted cluster not found"), s)

/-- Modelled from the spec: role store facade `GetRole(name)`. -/
def GetRole (s : BackendState) (name : String) : Except Err Unit :=
  if s.localRoles.contains name then .ok () else .error (.notFound "role not found")

/-- Modelled from the spec: `utils.ContainsExpansion` — a local role name
containing a template-expansion marker is treated as dynamic. -/
def ContainsExpansion (r : String) : Bool :=
  containsSubstring r "\x7b\x7b"

/-- The capability a cluster-join token must carry
(`teleport.RoleTrustedCluster`). -/
def RoleTrustedCluster : String := "Trusted_cluster"

/-- The legacy capability accepted alongside `RoleTrustedCluster`
(`teleport.LegacyClusterTokenType`). -/
def LegacyClusterTokenType : String := "Trustedcluster"

/-- Modelled from the spec: token validator facade `ValidateToken(token)`
— returns the capability list of a stored token, an error otherwise. -/
def ValidateToken (s : BackendState) (token : String) : Except Err (List String) :=
  match s.tokens.find? (fun p => decide (p.1 = token)) with
  | some p => .ok p.2
  | none => .error (.notFound "token not found")

/-- Modelled from the spec: audit facade `EmitAuditEvent` — appends the
event.  Emission failures are swallowed by every caller in the source,
so a total model is observationally faithful. -/
def EmitAuditEvent (s : BackendState) (kind : AuditKind) (user : String) : BackendState :=
  { s with auditEvents := s.auditEvents ++ [{ kind := kind, user := user }] }

/-- Modelled from the spec: `TrustedCluster.CanChangeStateTo` — toggling
`enabled` is allowed; changing the identifying fields of an established
relationship is rejected. -/
def canChangeStateTo (existing updated : TrustedCluster) : Option Err :=
  if existing.token = updated.token ∧
     existing.proxyAddress = updated.proxyAddress ∧
     existing.reverseTunnelAddress = updated.reverseTunnelAddress then
    none
  else
    some (.badParameter "can not change state of trusted cluster")

/-! ## Wire envelope of the validation RPC -/

/-- Native form of the validation request
(`ValidateTrustedClusterRequest`): the token and typed CA objects. -/
structure ValidateTrustedClusterRequest where
  token : String
  cas : List CertAuthority
deriving DecidableEq, Repr

/-- Native form of the validation response
(`ValidateTrustedClusterResponse`). -/
structure ValidateTrustedClusterResponse where
  cas : List CertAuthority
deriving DecidableEq, Repr

/-- Raw wire form of the validation request: CAs as opaque marshalled
blobs.  The Go blob type `[]byte` is abstracted to a type parameter `β`,
matching the spec, which leaves the byte layout to the system's CA
marshaller. -/
structure ValidateTrustedClusterRequestRaw (β : Type) where
  token : String
  cas : List β
deriving DecidableEq, Repr

/-- Raw wire form of the validation response. -/
structure ValidateTrustedClusterResponseRaw (β : Type) where
  cas : List β
deriving DecidableEq, Repr

/-- The marshalling loop shared by `ToRaw` of the request and the
response: marshal each CA, aborting on the first error. -/
def marshalCAList {β : Type} (marshal : CertAuthority → Except Err β) :
    List CertAuthority → Except Err (List β)
  | [] => .ok []
  | ca :: rest =>
    match marshal ca with
    | .error e => .error e
    | .ok b =>
      match marshalCAList marshal rest with
      | .error e => .error e
      | .ok bs => .ok (b :: bs)

/-- The unmarshalling loop shared by `ToNative` of the request and the
response. -/
def unmarshalCAList {β : Type} (unmarshal : β → Except Err CertAuthority) :
    List β → Except Err (List CertAuthority)
  | [] => .ok []
  | b :: rest =>
    match unmarshal b with
    | .error e => .error e
    | .ok ca =>
      match unmarshalCAList unmarshal rest with
      | .error e => .error e
      | .ok cas => .ok (ca :: cas)

/-- Mirrors `ValidateTrustedClusterRequest.ToRaw`. -/
def ValidateTrustedClusterRequest.toRaw {β : Type}
    (marshal : CertAuthority → Except Err β) (v : ValidateTrustedClusterRequest) :
    Except Err (ValidateTrustedClusterRequestRaw β) :=
  match marshalCAList marshal v.cas with
  | .error e => .error e
  | .ok bs => .ok { token := v.token, cas := bs }

/-- Mirrors `ValidateTrustedClusterRequestRaw.ToNative`. -/
def ValidateTrustedClusterRequestRaw.toNative {β : Type}
    (unmarshal : β → Except Err CertAuthority) (v : ValidateTrustedClusterRequestRaw β) :
    Except Err ValidateTrustedClusterRequest :=
  match unmarshalCAList unmarshal v.cas with
  | .error e => .error e
  | .ok cas => .ok { token := v.token, cas := cas }

/-- Mirrors `ValidateTrustedClusterResponse.ToRaw`. -/
def ValidateTrustedClusterResponse.toRaw {β : Type}
    (marshal : CertAuthority → Except Err β) (v : ValidateTrustedClusterResponse) :
    Except Err (ValidateTrustedClusterResponseRaw β) :=
  match marshalCAList marshal v.cas with
  | .error e => .error e
  | .ok bs => .ok { cas := bs }

/-- Mirrors `ValidateTrustedClusterResponseRaw.ToNative`. -/
def ValidateTrustedClusterResponseRaw.toNative {β : Type}
    (unmarshal : β → Except Err CertAuthority) (v : ValidateTrustedClusterResponseRaw β) :
    Except Err ValidateTrustedClusterResponse :=
  match unmarshalCAList unmarshal v.cas with
  | .error e => .error e
  | .ok cas => .ok { cas := cas }

/-- Raw-to-native-to-raw composition for the request, the subject of the
round-trip property. -/
def rawNativeRawRequest {β : Type} (marshal : CertAuthority → Except Err β)
    (unmarshal : β → Except Err CertAuthority) (r : ValidateTrustedClusterRequestRaw β) :
    Except Err (ValidateTrustedClusterRequestRaw β) :=
  match r.toNative unmarshal with
  | .error e => .error e
  | .ok n => n.toRaw marshal

/-- Raw-to-native-to-raw composition for the response. -/
def rawNativeRawResponse {β : Type} (marshal : CertAuthority → Except Err β)
    (unmarshal : β → Except Err CertAuthority) (r : ValidateTrustedClusterResponseRaw β) :
    Except Err (ValidateTrustedClusterResponseRaw β) :=
  match r.toNative unmarshal with
  | .error e => .error e
  | .ok n => n.toRaw marshal

/-! ## Outbound handshake and CA import -/

/-- The network oracle standing for `sendValidateRequestToProxy`: given
the proxy address and the validation request, it produces the remote
side's response or a transport error. -/
def Remote : Type :=
  String → ValidateTrustedClusterRequest → Except Err ValidateTrustedClusterResponse

/-- Mirrors the per-key-pair body of the response check in
`establishTrust`: parse the certificate, extract the subject cluster
name, and refuse equality with the local domain name. -/
def checkTLSKeyPair (domainName : String) (kp : TLSKeyPair) : Option Err :=
  match kp.certClusterName with
  | none => some (.badParameter "x509: failed to parse certificate")
  | some n =>
    if n = domainName then
      some (.badParameter "remote cluster name can not be the same as local cluster name")
    else
      none

/-- The inner key-pair loop of the response check in `establishTrust`. -/
def checkResponseKeyPairs (domainName : String) : List TLSKeyPair → Option Err
  | [] => none
  | kp :: rest =>
    match checkTLSKeyPair domainName kp with
    | some e => some e
    | none => checkResponseKeyPairs domainName rest

/-- The outer CA loop of the response check in `establishTrust`. -/
def checkResponseCAs (domainName : String) : List CertAuthority → Option Err
  | [] => none
  | ca :: rest =>
    match checkResponseKeyPairs domainName ca.tlsKeyPairs with
    | some e => some e
    | none => checkResponseCAs domainName rest

/-- Mirrors `AuthServer.establishTrust`: collect the local host CAs whose
cluster name is the local domain, send the validation request through
the proxy, rewrite transport errors mentioning `x509`, and vet every
returned CA's certificates before returning them.  The function only
reads the local backend. -/
def establishTrust (remote : Remote) (s : BackendState) (tc : TrustedCluster) :
    Except Err (List CertAuthority) :=
  let domainName := s.domainName
  let localCertAuthorities :=
    (s.activeCAs.filter (fun ca => decide (ca.caType = .hostCA))).filter
      (fun ca => decide (ca.clusterName = domainName))
  match remote tc.proxyAddress { token := tc.token, cas := localCertAuthorities } with
  | .error e =>
    if containsSubstring e.message "x509" then
      .error (.accessDenied "the trusted cluster uses misconfigured HTTP/TLS certificate.")
    else
      .error e
  | .ok resp =>
    match checkResponseCAs domainName resp.cas with
    | some e => .error e
    | none => .ok resp.cas

/-- The per-CA transformation performed by `addCertAuthorities` before
insertion: rename to the trusted cluster's name, wipe the roles sent by
the remote side, and for a user CA install the descriptor's roles and
role map. -/
def importCA (tc : TrustedCluster) (ca : CertAuthority) : CertAuthority :=
  let ca1 := ca.setName tc.name
  let ca2 := { ca1 with roles := [] }
  if ca2.caType = .userCA then
    { tc.roles.foldl CertAuthority.addRole ca2 with roleMap := tc.roleMap }
  else
    ca2

/-- Mirrors `AuthServer.addCertAuthorities`: import each remote CA with
create-only semantics, aborting on the first error. -/
def addCertAuthorities (s : BackendState) (tc : TrustedCluster) :
    List CertAuthority → Option Err × BackendState
  | [] => (none, s)
  | ca :: rest =>
    match CreateCertAuthority s (importCA tc ca) with
    | (some e, s1) => (some e, s1)
    | (none, s1) => addCertAuthorities s1 tc rest

/-! ## Wrappers over the CA store and tunnel registry -/

/-- Mirrors `AuthServer.activateCertAuthority`: activate the user CA,
then the host CA, stopping at the first error. -/
def activateCertAuthority (s : BackendState) (t : TrustedCluster) :
    Option Err × BackendState :=
  match ActivateCertAuthority s { caType := .userCA, domainName := t.name } with
  | (some e, s1) => (some e, s1)
  | (none, s1) => ActivateCertAuthority s1 { caType := .hostCA, domainName := t.name }

/-- Mirrors `AuthServer.deactivateCertAuthority`: deactivate the user CA,
then the host CA, stopping at the first error. -/
def deactivateCertAuthority (s : BackendState) (t : TrustedCluster) :
    Option Err × BackendState :=
  match DeactivateCertAuthority s { caType := .userCA, domainName := t.name } with
  | (some e, s1) => (some e, s1)
  | (none, s1) => DeactivateCertAuthority s1 { caType := .hostCA, domainName := t.name }

/-- Mirrors `AuthServer.getCertAuthorities`: load the user CA and the
host CA of the trusted cluster from the active store. -/
def getCertAuthorities (s : BackendState) (t : TrustedCluster) :
    Except Err (List CertAuthority) :=
  match GetCertAuthority s { caType := .userCA, domainName := t.name } with
  | .error e => .error e
  | .ok userCA =>
    match GetCertAuthority s { caType := .hostCA, domainName := t.name } with
    | .error e => .error e
    | .ok hostCA => .ok [userCA, hostCA]

/-- Mirrors `AuthServer.createReverseTunnel`.  The registry upsert is
total in the model, so no error component is produced. -/
def createReverseTunnel (s : BackendState) (t : TrustedCluster) : BackendState :=
  UpsertReverseTunnel s { name := t.name, dialAddrs := [t.reverseTunnelAddress] }

/-- Mirrors `AuthServer.checkLocalRoles` for the local names of one
mapping. -/
def checkMappingLocals (s : BackendState) : List String → Option Err
  | [] => none
  | r :: rest =>
    if ContainsExpansion r then checkMappingLocals s rest
    else
      match GetRole s r with
      | .ok _ => checkMappingLocals s rest
      | .error e =>
        if e.isNotFound then some (.notFound "a role referenced in a mapping is not defined")
        else some e

/-- Mirrors `AuthServer.checkLocalRoles` across the whole role map. -/
def checkLocalRoles (s : BackendState) : List RoleMapping → Option Err
  | [] => none
  | m :: rest =>
    match checkMappingLocals s m.localRoles with
    | some e => some e
    | none => checkLocalRoles s rest

/-! ## The trust reconciler -/

/-- The descriptor lookup at the top of `UpsertTrustedCluster`: the
existing record is consulted only when a name was submitted. -/
def findExistingTC (s : BackendState) (name : String) : Option TrustedCluster :=
  if name = "" then none
  else s.trustedClusters.find? (fun t => decide (t.name = name))

/-- The operator-facing message produced when activate or deactivate on
an existing descriptor reports not-found. -/
def legacyVersionMsg : String :=
  "enable only supported for Trusted Clusters created with Teleport 2.3 and above"

/-- The shared tail of `UpsertTrustedCluster` (source lines after the
state switch): persist the descriptor through Presence and emit the
`TrustedClusterCreate` audit event (audit failures are swallowed). -/
def finishUpsert (username : String) (s : BackendState) (tc : TrustedCluster) :
    Except Err TrustedCluster × BackendState :=
  match PresenceUpsertTrustedCluster s tc with
  | (stored, s1) => (.ok stored, EmitAuditEvent s1 .trustedClusterCreate username)

/-- Mirrors `AuthServer.UpsertTrustedCluster`, the four-way state switch
on `(exists, enabled)`.  The two `exists == false` source cases share
their prefix (role check, establish trust, pin the name, import CAs) and
differ only in the final action, which is expressed here by the single
`if tc.enabled` at the end. -/
def UpsertTrustedCluster (remote : Remote) (username : String) (s : BackendState)
    (tc : TrustedCluster) : Except Err TrustedCluster × BackendState :=
  match findExistingTC s tc.name with
  | some existing =>
    match canChangeStateTo existing tc with
    | some e => (.error e, s)
    | none =>
      if tc.enabled then
        match activateCertAuthority s tc with
        | (some e, s1) =>
          if e.isNotFound then (.error (.badParameter legacyVersionMsg), s1)
          else (.error e, s1)
        | (none, s1) => finishUpsert username (createReverseTunnel s1 tc) tc
      else
        match deactivateCertAuthority s tc with
        | (some e, s1) =>
          if e.isNotFound then (.error (.badParameter legacyVersionMsg), s1)
          else (.error e, s1)
        | (none, s1) =>
          match DeleteReverseTunnel s1 tc.name with
          | (some e, s2) => (.error e, s2)
          | (none, s2) => finishUpsert username s2 tc
  | none =>
    match checkLocalRoles s tc.roleMap with
    | some e => (.error e, s)
    | none =>
      match establishTrust remote s tc with
      | .error e => (.error e, s)
      | .ok [] =>
        -- the Go source indexes remoteCAs[0] unconditionally and would
        -- panic on an empty response; modelled as an error
        (.error (.other "index out of range"), s)
      | .ok (ca0 :: rest) =>
        let tc1 := { tc with name := ca0.clusterName }
        match addCertAuthorities s tc1 (ca0 :: rest) with
        | (some e, s1) => (.error e, s1)
        | (none, s1) =>
          if tc.enabled then
            finishUpsert username (createReverseTunnel s1 tc1) tc1
          else
            match deactivateCertAuthority s1 tc1 with
            | (some e, s2) => (.error e, s2)
            | (none, s2) => finishUpsert username s2 tc1

/-! ## The ensure loop -/

/-- Result of `ensureEnabled`.  The Go method mutates the descriptor in
place when it renames it (the resource is held by pointer), so the
possibly-renamed descriptor is returned alongside the `renamed` flag and
the error. -/
structure EnsureOutcome where
  renamed : Bool
  tc : TrustedCluster
  err : Option Err
  state : BackendState

/-- Mirrors `AuthServer.ensureEnabled`: attempt to activate both CAs; on
not-found read the CAs; on not-found there too, establish trust, rename
when the remote self-declared name differs, and import the CAs; every
successful path ends by creating the reverse tunnel. -/
def ensureEnabled (remote : Remote) (s : BackendState) (tc : TrustedCluster) :
    EnsureOutcome :=
  match activateCertAuthority s tc with
  | (none, s1) =>
    { renamed := false, tc := tc, err := none, state := createReverseTunnel s1 tc }
  | (some e, s1) =>
    if e.isNotFound = false then
      { renamed := false, tc := tc, err := some e, state := s1 }
    else
      -- the CAs are either already activated, or trust has not yet been
      -- established
      match getCertAuthorities s1 tc with
      | .ok _ =>
        { renamed := false, tc := tc, err := none, state := createReverseTunnel s1 tc }
      | .error e2 =>
        if e2.isNotFound = false then
          { renamed := false, tc := tc, err := some e2, state := s1 }
        else
          -- no active or inactive CAs: establish trust for the first time
          match establishTrust remote s1 tc with
          | .error e3 =>
            { renamed := false, tc := tc, err := some e3, state := s1 }
          | .ok [] =>
            -- the Go source indexes cas[0] unconditionally; see above
            { renamed := false, tc := tc, err := some (.other "index out of range"), state := s1 }
          | .ok (ca0 :: rest) =>
            let renamed := decide (ca0.clusterName ≠ tc.name)
            let tc1 :=
              if ca0.clusterName ≠ tc.name then { tc with name := ca0.clusterName } else tc
            match addCertAuthorities s1 tc1 (ca0 :: rest) with
            | (some e4, s2) =>
              { renamed := renamed, tc := tc1, err := some e4, state := s2 }
            | (none, s2) =>
              { renamed := renamed, tc := tc1, err := none, state := createReverseTunnel s2 tc1 }

/-- Mirrors `AuthServer.ensureDisabled`: deactivate both CAs and delete
the reverse tunnel, tolerating not-found at each step. -/
def ensureDisabled (s : BackendState) (tc : TrustedCluster) :
    Option Err × BackendState :=
  match deactivateCertAuthority s tc with
  | (e1, s1) =>
    match nonNotFound e1 with
    | some e => (some e, s1)
    | none =>
      match DeleteReverseTunnel s1 tc.name with
      | (e2, s2) =>
        match nonNotFound e2 with
        | some e => (some e, s2)
        | none => (none, s2)

/-- The body of the `EnsureTrustedClusters` loop for one descriptor:
reconcile it, collect its error, and when it was renamed store it under
the new name through Presence and then delete the record under the old
name, collecting a failure of either step as well. -/
def processTrustedCluster (remote : Remote) (s : BackendState) (tc : TrustedCluster) :
    List Err × BackendState :=
  if tc.enabled then
    match ensureEnabled remote s tc with
    | r =>
      if r.renamed = false then (r.err.toList, r.state)
      else
        -- the trusted cluster was renamed: first store it, then delete
        -- the entry under the old name (the Presence upsert is total in
        -- the model; in the source its failure is likewise appended)
        match PresenceUpsertTrustedCluster r.state r.tc with
        | (_, s1) =>
          match PresenceDeleteTrustedCluster s1 tc.name with
          | (some e, s2) => (r.err.toList ++ [e], s2)
          | (none, s2) => (r.err.toList, s2)
  else
    match ensureDisabled s tc with
    | (e, s1) => (e.toList, s1)

/-- The `EnsureTrustedClusters` loop with its error accumulator. -/
def ensureLoop (remote : Remote) (errs : List Err) (s : BackendState) :
    List TrustedCluster → List Err × BackendState
  | [] => (errs, s)
  | tc :: rest =>
    match processTrustedCluster remote s tc with
    | (es, s1) => ensureLoop remote (errs ++ es) s1 rest

/-- Mirrors `AuthServer.EnsureTrustedClusters`: load the descriptors when
none were supplied, reconcile each one, and return the collected errors
as a single aggregate (nil when none occurred). -/
def EnsureTrustedClusters (remote : Remote) (s : BackendState)
    (tcs : List TrustedCluster) : Option Err × BackendState :=
  let tcs := if tcs.isEmpty then s.trustedClusters else tcs
  match ensureLoop remote [] s tcs with
  | (errs, s1) => (NewAggregate errs, s1)

/-! ## Deletion -/

/-- The self-delete refusal message of `DeleteTrustedCluster`. -/
def selfDeleteMsg (name : String) : String :=
  "trusted cluster " ++ name ++ " is the name of this root cluster and cannot be removed."

/-- Mirrors `AuthServer.DeleteTrustedCluster`: refuse deleting the local
cluster, delete the host CA, the user CA and the reverse tunnel
(tolerating not-found from each), then delete the descriptor (whose
failure is returned), and emit the `TrustedClusterDelete` audit event on
success. -/
def DeleteTrustedCluster (username : String) (s : BackendState) (name : String) :
    Option Err × BackendState :=
  if s.domainName = name then
    (some (.badParameter (selfDeleteMsg name)), s)
  else
    match DeleteCertAuthority s { caType := .hostCA, domainName := name } with
    | (e1, s1) =>
      match nonNotFound e1 with
      | some e => (some e, s1)
      | none =>
        match DeleteCertAuthority s1 { caType := .userCA, domainName := name } with
        | (e2, s2) =>
          match nonNotFound e2 with
          | some e => (some e, s2)
          | none =>
            match DeleteReverseTunnel s2 name with
            | (e3, s3) =>
              match nonNotFound e3 with
              | some e => (some e, s3)
              | none =>
                match PresenceDeleteTrustedCluster s3 name with
                | (some e, s4) => (some e, s4)
                | (none, s4) => (none, EmitAuditEvent s4 .trustedClusterDelete username)

/-! ## Token validation on the responder -/

/-- The message returned when the submitted token is unknown or invalid. -/
def invalidClusterTokenMsg : String :=
  "the remote server denied access: invalid cluster token"

/-- The message returned when the token exists but lacks the
trusted-cluster capability. -/
def roleMismatchMsg : String := "role does not match"

/-- Mirrors `AuthServer.validateTrustedClusterToken`: any validation
failure becomes access-denied with the invalid-token message; a token
without the `trusted_cluster` capability (or its legacy equivalent)
becomes access-denied with the role-mismatch message. -/
def validateTrustedClusterToken (s : BackendState) (token : String) : Option Err :=
  match ValidateToken s token with
  | .error _ => some (.accessDenied invalidClusterTokenMsg)
  | .ok roles =>
    if !(roles.contains RoleTrustedCluster) && !(roles.contains LegacyClusterTokenType) then
      some (.accessDenied roleMismatchMsg)
    else
      none

/-! ## The orphan-CA collector -/

/-- A CA suspected of being orphaned (`suspectedOrphanCA`). -/
structure SuspectedOrphanCA where
  ca : CertAuthority
  since : Nat
  seen : Bool
deriving DecidableEq, Repr

/-- State of the periodic trust controller (`trustController`). -/
structure TrustController where
  orphanAfter : Nat
  suspectedOrphanCAs : List SuspectedOrphanCA
deriving DecidableEq, Repr

/-- The candidate scan of one CA list inside `trustController.cycle`: a
CA whose cluster name is the local domain or is claimed by a descriptor
is skipped; a CA already tracked as a suspect is skipped as well — the
source additionally assigns `sus.seen = true` there, but it ranges over
the suspect slice by value, so the assignment lands on the iteration
copy and has no effect on the tracked entry; a CA tracked by nobody
becomes a fresh suspect with `since = t` and `seen = true`. -/
def collectSuspects (domainName : String) (tcs : List TrustedCluster)
    (suspects : List SuspectedOrphanCA) (t : Nat) :
    List CertAuthority → List SuspectedOrphanCA
  | [] => []
  | ca :: rest =>
    if ca.clusterName = domainName then
      collectSuspects domainName tcs suspects t rest
    else if tcs.any (fun tc => decide (tc.name = ca.clusterName)) then
      collectSuspects domainName tcs suspects t rest
    else if suspects.any (fun sus => decide (ca = sus.ca)) then
      collectSuspects domainName tcs suspects t rest
    else
      { ca := ca, since := t, seen := true } :: collectSuspects domainName tcs suspects t rest

/-- The final loop of `trustController.cycle` over the previously tracked
suspects: an unseen suspect is dropped; a seen suspect past the orphan
cutoff has its CA deleted (not-found and any other deletion error are
only logged) and is dropped; a seen suspect within the grace window is
kept.  `acc` is the `nextSuspects` accumulator, already holding the
fresh suspects gathered by the scan. -/
def sweepSuspects (orphanAfter t : Nat) :
    List SuspectedOrphanCA → List SuspectedOrphanCA → BackendState →
    List SuspectedOrphanCA × BackendState
  | [], acc, s => (acc, s)
  | sus :: rest, acc, s =>
    if sus.seen = false then
      sweepSuspects orphanAfter t rest acc s
    else if sus.since < t ∧ t - sus.since > orphanAfter then
      match DeleteCertAuthority s sus.ca.getID with
      | (_, s1) => sweepSuspects orphanAfter t rest acc s1
    else
      sweepSuspects orphanAfter t rest (acc ++ [sus]) s

/-- Mirrors `trustController.cycle`: read the descriptors from the
backend, best-effort run the ensure loop (its error is only logged),
scan the user CAs and then the host CAs for orphan candidates, and sweep
the previously tracked suspects.

The source's reset loop (`for _, sus := range c.suspectedOrphanCAs
followed by sus.seen = false`) iterates the value slice by value: the
assignment mutates the per-iteration copy and the tracked entries keep
whatever `seen` value they were stored with.  The reset is therefore
embedded as the identity, exactly as the Go semantics dictate. -/
def TrustController.cycle (remote : Remote) (c : TrustController)
    (auth : BackendState) (t : Nat) :
    Option Err × TrustController × BackendState :=
  let domainName := auth.domainName
  -- trusted clusters are read from the backend store, not the cache
  let tcs := auth.trustedClusters
  match EnsureTrustedClusters remote auth tcs with
  | (_, s1) =>
    -- the seen reset of the source is a no-op (see the doc comment)
    let nextFresh :=
      collectSuspects domainName tcs c.suspectedOrphanCAs t
          (s1.activeCAs.filter (fun ca => decide (ca.caType = .userCA))) ++
      collectSuspects domainName tcs c.suspectedOrphanCAs t
          (s1.activeCAs.filter (fun ca => decide (ca.caType = .hostCA)))
    match sweepSuspects c.orphanAfter t c.suspectedOrphanCAs nextFresh s1 with
    | (nextSuspects, s2) =>
      (none, { c with suspectedOrphanCAs := nextSuspects }, s2)

/-! ## Concrete scenarios -/

/-- A dangling host CA named `ghost`, not covered by any descriptor at
first. -/
def ghostCA : CertAuthority :=
  { caType := .hostCA, domainName := "ghost", clusterName := "ghost",
    roles := [], roleMap := [], tlsKeyPairs := [] }

/-- A network oracle that refuses every handshake; used by scenarios in
which the handshake must not be (successfully) consulted. -/
def idleRemote : Remote := fun _ _ => .error (.accessDenied "unreachable")

/-- Initial backend for the orphan-collector scenario: only the ghost CA
exists. -/
def ghostState0 : BackendState :=
  { domainName := "root", activeCAs := [ghostCA], inactiveCAs := [],
    trustedClusters := [], reverseTunnels := [], localRoles := [],
    tokens := [], auditEvents := [] }

/-- Fresh controller with a 10-tick grace window. -/
def ghostController0 : TrustController :=
  { orphanAfter := 10, suspectedOrphanCAs := [] }

/-- A disabled descriptor claiming the ghost CA, created between the two
collector cycles. -/
def tcGhost : TrustedCluster :=
  { name := "ghost", enabled := false, token := "tok", proxyAddress := "p",
    reverseTunnelAddress := "rt", roles := [], roleMap := [] }

/-- Controller state after the first collector cycle (run at `t = 0`),
which tracks the ghost CA as a suspect. -/
def ghostController1 : TrustController :=
  (TrustController.cycle idleRemote ghostController0 ghostState0 0).2.1

/-- Backend before the second collector cycle: a descriptor named
`ghost` now claims the CA. -/
def ghostState1 : BackendState :=
  { ghostState0 with trustedClusters := [tcGhost] }

/-- An empty root-side backend named `root`. -/
def rootState : BackendState :=
  { domainName := "root", activeCAs := [], inactiveCAs := [], trustedClusters := [],
    reverseTunnels := [], localRoles := [], tokens := [], auditEvents := [] }

/-- The host CA a remote cluster named `leaf-east` presents during the
handshake. -/
def leafHostCA : CertAuthority :=
  { caType := .hostCA, domainName := "leaf-east", clusterName := "leaf-east",
    roles := [], roleMap := [], tlsKeyPairs := [{ certClusterName := some "leaf-east" }] }

/-- The user CA a remote cluster named `leaf-east` presents during the
handshake. -/
def leafUserCA : CertAuthority :=
  { caType := .userCA, domainName := "leaf-east", clusterName := "leaf-east",
    roles := ["remote-admin"], roleMap := [], tlsKeyPairs := [{ certClusterName := some "leaf-east" }] }

/-- A network oracle validating every request as the cluster `leaf-east`. -/
def leafRemote : Remote := fun _ _ => .ok { cas := [leafHostCA, leafUserCA] }

/-- A descriptor submitted under a provisional name, to be pinned to
`leaf-east` by the first handshake. -/
def tcTemp : TrustedCluster :=
  { name := "temp", enabled := true, token := "tok", proxyAddress := "p:443",
    reverseTunnelAddress := "rt:3024", roles := ["dev"], roleMap := [] }

/-- Claim C1 (code bug): run the collector at `t = 0` with the ghost CA
uncovered, recreate a matching descriptor, and run it again at
`t = 11 > orphan_after = 10`.  The descriptor named `ghost` exists in
the backend for the entire second cycle (the cycle also leaves it in
place), yet the cycle deletes the ghost CA.  The suspect was not
re-encountered as an orphan candidate — the scan skips a CA claimed by a
descriptor — so the claim (and the comments in the source) require it to
be dropped unseen; but the source iterates the suspect slice by value,
so both the seen reset and the seen marking write to per-iteration
copies, every tracked suspect stays `seen = true` forever, and the
drop-unseen branch is unreachable. -/
theorem cycle_deletes_ca_claimed_by_descriptor :
    ghostController1 =
      { orphanAfter := 10,
        suspectedOrphanCAs := [{ ca := ghostCA, since := 0, seen := true }] } ∧
    (TrustController.cycle idleRemote ghostController0 ghostState0 0).2.2 = ghostState0 ∧
    ghostCA ∈ ghostState1.activeCAs ∧
    ghostState1.trustedClusters = [tcGhost] ∧
    tcGhost.name = ghostCA.clusterName ∧
    (TrustController.cycle idleRemote ghostController1 ghostState1 11).2.2.trustedClusters
      = [tcGhost] ∧
    (TrustController.cycle idleRemote ghostController1 ghostState1 11).2.2.activeCAs = [] := by
  refine ⟨rfl, rfl, ?_, rfl, rfl, rfl, rfl⟩
  simp [ghostState1, ghostState0]

/-- Marshalling and unmarshalling a CA list are mutually inverse when the
underlying marshaller is. -/
theorem marshal_unmarshal_list {β : Type} (marshal : CertAuthority → Except Err β)
    (unmarshal : β → Except Err CertAuthority)
    (h : ∀ ca b, marshal ca = .ok b → unmarshal b = .ok ca) :
    ∀ cas bs, marshalCAList marshal cas = .ok bs →
      unmarshalCAList unmarshal bs = .ok cas := by
  intro cas
  induction cas with
  | nil =>
    intro bs hb
    unfold marshalCAList at hb
    injection hb with hb
    rw [← hb]
    rfl
  | cons ca rest ih =>
    intro bs hb
    unfold marshalCAList at hb
    cases hm : marshal ca with
    | error e => rw [hm] at hb; exact absurd hb (by simp)
    | ok b =>
      rw [hm] at hb
      cases hr : marshalCAList marshal rest with
      | error e => rw [hr] at hb; exact absurd hb (by simp)
      | ok bs2 =>
        rw [hr] at hb
        injection hb with hb
        rw [← hb]
        unfold unmarshalCAList
        rw [h ca b hm, ih bs2 hr]

/-- Claim C10: for any CA set (and token), converting the raw wire form
to native and back to raw reproduces the raw form, for both the request
and the response envelope, assuming the system CA marshaller's marshal
and unmarshal are mutually inverse. -/
theorem wire_envelope_round_trip {β : Type}
    (marshal : CertAuthority → Except Err β) (unmarshal : β → Except Err CertAuthority)
    (h : ∀ ca b, marshal ca = .ok b → unmarshal b = .ok ca)
    (req : ValidateTrustedClusterRequest) (rawReq : ValidateTrustedClusterRequestRaw β)
    (resp : ValidateTrustedClusterResponse) (rawResp : ValidateTrustedClusterResponseRaw β) :
    (req.toRaw marshal = .ok rawReq →
      rawNativeRawRequest marshal unmarshal rawReq = .ok rawReq) ∧
    (resp.toRaw marshal = .ok rawResp →
      rawNativeRawResponse marshal unmarshal rawResp = .ok rawResp) := by
  constructor
  · intro hq
    unfold ValidateTrustedClusterRequest.toRaw at hq
    cases hm : marshalCAList marshal req.cas with
    | error e => rw [hm] at hq; exact absurd hq (by simp)
    | ok bs =>
      rw [hm] at hq
      injection hq with hq
      rw [← hq]
      unfold rawNativeRawRequest ValidateTrustedClusterRequestRaw.toNative
      simp only [marshal_unmarshal_list marshal unmarshal h req.cas bs hm]
      unfold ValidateTrustedClusterRequest.toRaw
      simp only [hm]
  · intro hp
    unfold ValidateTrustedClusterResponse.toRaw at hp
    cases hm : marshalCAList marshal resp.cas with
    | error e => rw [hm] at hp; exact absurd hp (by simp)
    | ok bs =>
      rw [hm] at hp
      injection hp with hp
      rw [← hp]
      unfold rawNativeRawResponse ValidateTrustedClusterResponseRaw.toNative
      simp only [marshal_unmarshal_list marshal unmarshal h resp.cas bs hm]
      unfold ValidateTrustedClusterResponse.toRaw
      simp only [hm]

/-- Witness for C10: a one-element CA set under the identity marshaller. -/
theorem wire_envelope_round_trip_witness :
    rawNativeRawRequest (β := CertAuthority) Except.ok Except.ok
        { token := "tok", cas := [leafHostCA] } = .ok { token := "tok", cas := [leafHostCA] } ∧
    rawNativeRawResponse (β := CertAuthority) Except.ok Except.ok
        { cas := [leafHostCA] } = .ok { cas := [leafHostCA] } := by
  have h : ∀ (ca b : CertAuthority),
      Except.ok (ε := Err) ca = Except.ok b → Except.ok (ε := Err) b = Except.ok ca := by
    intro ca b hb
    injection hb with hb
    rw [hb]
  exact ⟨(wire_envelope_round_trip Except.ok Except.ok h
            { token := "tok", cas := [leafHostCA] } { token := "tok", cas := [leafHostCA] }
            { cas := [leafHostCA] } { cas := [leafHostCA] }).1 rfl,
         (wire_envelope_round_trip Except.ok Except.ok h
            { token := "tok", cas := [leafHostCA] } { token := "tok", cas := [leafHostCA] }
            { cas := [leafHostCA] } { cas := [leafHostCA] }).2 rfl⟩

/-- A responder-side backend holding no token at all. -/
def noTokenState : BackendState :=
  { domainName := "leaf", activeCAs := [], inactiveCAs := [], trustedClusters := [],
    reverseTunnels := [], localRoles := [], tokens := [], auditEvents := [] }

/-- A responder-side backend whose token `tok` exists but carries only
the `Node` capability. -/
def wrongCapState : BackendState :=
  { noTokenState with tokens := [("tok", ["Node"])] }

/-- Counterexample to C5 as stated: both failure modes are access-denied,
but the two user-visible messages differ — the invalid-token message is
`the remote server denied access: invalid cluster token` while the
capability-mismatch message is `role does not match` and does not even
contain the phrase `the remote server denied access` — so an observer
can tell the two causes apart. -/
theorem token_failure_messages_are_distinguishable :
    validateTrustedClusterToken noTokenState "tok" =
      some (.accessDenied "the remote server denied access: invalid cluster token") ∧
    validateTrustedClusterToken wrongCapState "tok" =
      some (.accessDenied "role does not match") ∧
    "role does not match" ≠ "the remote server denied access: invalid cluster token" ∧
    containsSubstring "role does not match" "the remote server denied access" = false := by
  exact ⟨rfl, rfl, by decide, rfl⟩

/-- Claim C5 (amended): for every token input, validation fails with an
access-denied error both when the token is absent or invalid and when
its capabilities lack the trusted-cluster role (or the legacy
equivalent); the two failure modes, however, carry different messages —
`the remote server denied access: invalid cluster token` versus
`role does not match` — so the two causes are distinguishable. -/
theorem token_validation_access_denied_messages (s : BackendState) (token : String)
    (e : Err) (roles : List String) :
    (ValidateToken s token = .error e →
      validateTrustedClusterToken s token = some (.accessDenied invalidClusterTokenMsg)) ∧
    (ValidateToken s token = .ok roles →
      roles.contains RoleTrustedCluster = false →
      roles.contains LegacyClusterTokenType = false →
      validateTrustedClusterToken s token = some (.accessDenied roleMismatchMsg)) ∧
    invalidClusterTokenMsg ≠ roleMismatchMsg := by
  refine ⟨?_, ?_, by decide⟩
  · intro hv
    unfold validateTrustedClusterToken
    rw [hv]
  · intro hv h1 h2
    unfold validateTrustedClusterToken
    rw [hv]
    show (if (!roles.contains RoleTrustedCluster && !roles.contains LegacyClusterTokenType) = true
          then some (Err.accessDenied roleMismatchMsg) else none)
        = some (Err.accessDenied roleMismatchMsg)
    rw [h1, h2]
    rfl

/-- Witness for C5: the concrete no-token and wrong-capability backends. -/
theorem token_validation_access_denied_messages_witness :
    validateTrustedClusterToken noTokenState "tok" = some (.accessDenied invalidClusterTokenMsg) ∧
    validateTrustedClusterToken wrongCapState "tok" = some (.accessDenied roleMismatchMsg) :=
  ⟨(token_validation_access_denied_messages noTokenState "tok"
      (.notFound "token not found") []).1 rfl,
   (token_validation_access_denied_messages wrongCapState "tok"
      (.notFound "token not found") ["Node"]).2.1 rfl rfl rfl⟩

/-- Claim C7: when the descriptor does not yet exist, the local role
check passes, and `establishTrust` fails (for example because the
responder rejected the token), `UpsertTrustedCluster` returns that very
error and the backend is left untouched: no CA imported, no reverse
tunnel created, no descriptor persisted, no audit event. -/
theorem establish_failure_mutates_nothing (remote : Remote) (u : String) (s : BackendState)
    (tc : TrustedCluster) (e : Err)
    (hfind : findExistingTC s tc.name = none)
    (hroles : checkLocalRoles s tc.roleMap = none)
    (hest : establishTrust remote s tc = .error e) :
    UpsertTrustedCluster remote u s tc = (.error e, s) := by
  unfold UpsertTrustedCluster
  rw [hfind, hroles, hest]

/-- Witness for C7: submitting the provisional descriptor against a
remote that denies the handshake leaves the empty root backend exactly
as it was. -/
theorem establish_failure_mutates_nothing_witness :
    UpsertTrustedCluster idleRemote "admin" rootState tcTemp =
      (.error (.accessDenied "unreachable"), rootState) :=
  establish_failure_mutates_nothing idleRemote "admin" rootState tcTemp
    (.accessDenied "unreachable") rfl rfl rfl

/-- In the modelled CA store, deleting can fail only with not-found, so
the tolerance filter of the callers never turns its outcome into a fatal
error. -/
theorem deleteCertAuthority_tolerated (s : BackendState) (id : CertAuthID) :
    nonNotFound (DeleteCertAuthority s id).1 = none := by
  unfold DeleteCertAuthority
  split <;> rfl

/-- In the modelled tunnel registry, deletion can fail only with
not-found. -/
theorem deleteReverseTunnel_tolerated (s : BackendState) (name : String) :
    nonNotFound (DeleteReverseTunnel s name).1 = none := by
  unfold DeleteReverseTunnel
  split <;> rfl

/-- Claim C8: `DeleteTrustedCluster(name)` refuses with bad-parameter and
changes nothing when `name` is the local domain; otherwise it deletes
the host CA, the user CA and the reverse tunnel in that order (a
not-found from each of those steps — the only failure the modelled
stores produce — is tolerated), then deletes the descriptor, returning
its failure, and emits the `TrustedClusterDelete` audit event on
success. -/
theorem deleteTrustedCluster_characterized (username : String) (s : BackendState)
    (name : String) :
    (s.domainName = name →
      DeleteTrustedCluster username s name = (some (.badParameter (selfDeleteMsg name)), s)) ∧
    (s.domainName ≠ name →
      DeleteTrustedCluster username s name =
        (let s1 := (DeleteCertAuthority s { caType := .hostCA, domainName := name }).2
         let s2 := (DeleteCertAuthority s1 { caType := .userCA, domainName := name }).2
         let s3 := (DeleteReverseTunnel s2 name).2
         match PresenceDeleteTrustedCluster s3 name with
         | (some e, s4) => (some e, s4)
         | (none, s4) => (none, EmitAuditEvent s4 .trustedClusterDelete username))) := by
  constructor
  · intro h
    unfold DeleteTrustedCluster
    rw [if_pos h]
  · intro h
    unfold DeleteTrustedCluster
    rw [if_neg h]
    rcases h1 : DeleteCertAuthority s { caType := .hostCA, domainName := name } with ⟨e1, s1⟩
    have t1 := deleteCertAuthority_tolerated s { caType := .hostCA, domainName := name }
    rw [h1] at t1
    rcases h2 : DeleteCertAuthority s1 { caType := .userCA, domainName := name } with ⟨e2, s2⟩
    have t2 := deleteCertAuthority_tolerated s1 { caType := .userCA, domainName := name }
    rw [h2] at t2
    rcases h3 : DeleteReverseTunnel s2 name with ⟨e3, s3⟩
    have t3 := deleteReverseTunnel_tolerated s2 name
    rw [h3] at t3
    simp only [h1, h2, h3, t1, t2, t3]

/-- A populated backend from which the descriptor `leaf` and its coupled
resources are removed. -/
def delState : BackendState :=
  { domainName := "root",
    activeCAs := [{ caType := .hostCA, domainName := "leaf", clusterName := "leaf",
                    roles := [], roleMap := [], tlsKeyPairs := [] },
                  { caType := .userCA, domainName := "leaf", clusterName := "leaf",
                    roles := [], roleMap := [], tlsKeyPairs := [] }],
    inactiveCAs := [],
    trustedClusters := [{ name := "leaf", enabled := true, token := "tok",
                          proxyAddress := "p", reverseTunnelAddress := "rt",
                          roles := [], roleMap := [] }],
    reverseTunnels := [{ name := "leaf", dialAddrs := ["rt"] }],
    localRoles := [], tokens := [], auditEvents := [] }

/-- Witness for C8: the self-delete refusal on `root` and the full
deletion of `leaf` on the populated backend. -/
theorem deleteTrustedCluster_characterized_witness :
    DeleteTrustedCluster "admin" delState "root" =
      (some (.badParameter (selfDeleteMsg "root")), delState) ∧
    DeleteTrustedCluster "admin" delState "leaf" =
      (let s1 := (DeleteCertAuthority delState { caType := .hostCA, domainName := "leaf" }).2
       let s2 := (DeleteCertAuthority s1 { caType := .userCA, domainName := "leaf" }).2
       let s3 := (DeleteReverseTunnel s2 "leaf").2
       match PresenceDeleteTrustedCluster s3 "leaf" with
       | (some e, s4) => (some e, s4)
       | (none, s4) => (none, EmitAuditEvent s4 .trustedClusterDelete "admin")) :=
  ⟨(deleteTrustedCluster_characterized "admin" delState "root").1 rfl,
   (deleteTrustedCluster_characterized "admin" delState "leaf").2 (by decide)⟩

/-- Claim C6: on an existing descriptor, for both the enable and the
disable transitions, a not-found error from CA activation or
deactivation is translated by `UpsertTrustedCluster` into a
bad-parameter error carrying the legacy-migration operator message
(`enable only supported for Trusted Clusters created with Teleport 2.3
and above`), rather than surfacing the not-found error itself. -/
theorem legacy_missing_ca_bad_parameter (remote : Remote) (u : String)
    (s s1 : BackendState) (tc existing : TrustedCluster) (e : Err)
    (hfind : findExistingTC s tc.name = some existing)
    (hchange : canChangeStateTo existing tc = none) :
    (tc.enabled = true → activateCertAuthority s tc = (some e, s1) → e.isNotFound = true →
      UpsertTrustedCluster remote u s tc = (.error (.badParameter legacyVersionMsg), s1)) ∧
    (tc.enabled = false → deactivateCertAuthority s tc = (some e, s1) → e.isNotFound = true →
      UpsertTrustedCluster remote u s tc = (.error (.badParameter legacyVersionMsg), s1)) := by
  constructor
  · intro hen hact hnf
    unfold UpsertTrustedCluster
    simp only [hfind, hchange, hen, hact, hnf, if_true]
  · intro hen hdeact hnf
    unfold UpsertTrustedCluster
    simp only [hfind, hchange, hen, hdeact, hnf, if_true, Bool.false_eq_true, if_false]

/-- A legacy descriptor, enabled, whose CA records are absent from both
collections. -/
def tcLegacyEnabled : TrustedCluster :=
  { name := "legacy", enabled := true, token := "tok", proxyAddress := "p",
    reverseTunnelAddress := "rt", roles := [], roleMap := [] }

/-- The same legacy descriptor with `enabled := false`. -/
def tcLegacyDisabled : TrustedCluster :=
  { tcLegacyEnabled with enabled := false }

/-- A backend holding both legacy descriptors and no CA records at all. -/
def legacyState : BackendState :=
  { domainName := "root", activeCAs := [], inactiveCAs := [],
    trustedClusters := [tcLegacyEnabled, { tcLegacyDisabled with name := "legacy2" }],
    reverseTunnels := [], localRoles := [], tokens := [], auditEvents := [] }

/-- Witness for C6: both transitions on the legacy backend produce the
bad-parameter operator message. -/
theorem legacy_missing_ca_bad_parameter_witness :
    UpsertTrustedCluster idleRemote "admin" legacyState tcLegacyEnabled =
      (.error (.badParameter legacyVersionMsg), legacyState) ∧
    UpsertTrustedCluster idleRemote "admin" legacyState
        { tcLegacyDisabled with name := "legacy2" } =
      (.error (.badParameter legacyVersionMsg), legacyState) :=
  ⟨(legacy_missing_ca_bad_parameter idleRemote "admin" legacyState legacyState
      tcLegacyEnabled tcLegacyEnabled (.notFound "can not activate cert authority")
      rfl rfl).1 rfl rfl rfl,
   (legacy_missing_ca_bad_parameter idleRemote "admin" legacyState legacyState
      { tcLegacyDisabled with name := "legacy2" } { tcLegacyDisabled with name := "legacy2" }
      (.notFound "can not deactivate cert authority")
      rfl rfl).2 rfl rfl rfl⟩

/-- Folding `addRole` over fresh role names appends them in order. -/
theorem foldl_addRole (l : List String) :
    ∀ ca : CertAuthority, l.Nodup → (∀ r ∈ l, r ∉ ca.roles) →
      l.foldl CertAuthority.addRole ca = { ca with roles := ca.roles ++ l } := by
  induction l with
  | nil => intro ca _ _; simp
  | cons r rest ih =>
    intro ca hnd hdisj
    have hr : r ∉ ca.roles := hdisj r (by simp)
    have h1 : CertAuthority.addRole ca r = { ca with roles := ca.roles ++ [r] } := by
      unfold CertAuthority.addRole
      rw [if_neg hr]
    rw [List.foldl_cons, h1,
        ih { ca with roles := ca.roles ++ [r] } (List.Nodup.of_cons hnd) ?fresh]
    · simp
    case fresh =>
      intro x hx
      have hxr : x ≠ r := by
        intro hc
        exact (List.nodup_cons.mp hnd).1 (hc ▸ hx)
      simp only [List.mem_append, List.mem_singleton]
      rintro (hm | hm)
      · exact hdisj x (List.mem_cons_of_mem r hx) hm
      · exact hxr hm

/-- Claim C4: the per-CA import renames the CA's domain name to the
pinned TrustedCluster name, clears its roles, copies the descriptor's
roles and role map onto it exactly when it is a user CA (a host CA ends
with empty roles and its incoming role map untouched), and the insert is
create-only: a key collision with an existing CA makes the import fail
with already-exists, aborting the enrollment with no further CA
inserted. -/
theorem ca_import_shape_and_create_only (s : BackendState) (tc : TrustedCluster)
    (ca : CertAuthority) (rest : List CertAuthority) (hnd : tc.roles.Nodup) :
    (importCA tc ca).domainName = tc.name ∧
    (importCA tc ca).caType = ca.caType ∧
    (ca.caType = .userCA →
      (importCA tc ca).roles = tc.roles ∧ (importCA tc ca).roleMap = tc.roleMap) ∧
    (ca.caType = .hostCA →
      (importCA tc ca).roles = [] ∧ (importCA tc ca).roleMap = ca.roleMap) ∧
    (s.activeCAs.any (fun c => decide (c.getID = (importCA tc ca).getID)) = true →
      addCertAuthorities s tc (ca :: rest) =
        (some (.alreadyExists "cert authority already exists"), s)) := by
  have hfold := foldl_addRole tc.roles
      { caType := ca.caType, domainName := tc.name, clusterName := ca.clusterName,
        roles := [], roleMap := ca.roleMap, tlsKeyPairs := ca.tlsKeyPairs } hnd (by simp)
  have himp : importCA tc ca =
      if ca.caType = .userCA then
        { ca with domainName := tc.name, roles := tc.roles, roleMap := tc.roleMap }
      else
        { ca with domainName := tc.name, roles := [] } := by
    unfold importCA CertAuthority.setName
    by_cases hca : ca.caType = .userCA
    · simp only [hca] at hfold ⊢
      simp [hfold]
    · simp [hca]
  refine ⟨?_, ?_, ?_, ?_, ?_⟩
  · rw [himp]; split <;> rfl
  · rw [himp]; split <;> rfl
  · intro hu; rw [himp, if_pos hu]; exact ⟨rfl, rfl⟩
  · intro hh
    have : ¬ ca.caType = .userCA := by rw [hh]; intro hc; cases hc
    rw [himp, if_neg this]; exact ⟨rfl, rfl⟩
  · intro hcol
    unfold addCertAuthorities CreateCertAuthority
    rw [hcol]
    rfl

/-- A descriptor with a role map, used by the import witness. -/
def tcImport : TrustedCluster :=
  { name := "leaf-east", enabled := true, token := "tok", proxyAddress := "p",
    reverseTunnelAddress := "rt", roles := ["dev", "ops"],
    roleMap := [{ remote := "admin", localRoles := ["root-admin"] }] }

/-- A backend already holding a user CA under the pinned name, producing
the create-only collision. -/
def collisionState : BackendState :=
  { domainName := "root",
    activeCAs := [{ caType := .userCA, domainName := "leaf-east", clusterName := "leaf-east",
                    roles := [], roleMap := [], tlsKeyPairs := [] }],
    inactiveCAs := [], trustedClusters := [], reverseTunnels := [],
    localRoles := [], tokens := [], auditEvents := [] }

/-- Witness for C4: importing the remote user CA under `tcImport` into a
backend that already holds a CA with the same key. -/
theorem ca_import_shape_and_create_only_witness :
    (importCA tcImport leafUserCA).domainName = tcImport.name ∧
    (importCA tcImport leafUserCA).roles = tcImport.roles ∧
    (importCA tcImport leafUserCA).roleMap = tcImport.roleMap ∧
    addCertAuthorities collisionState tcImport [leafUserCA] =
      (some (.alreadyExists "cert authority already exists"), collisionState) := by
  have h := ca_import_shape_and_create_only collisionState tcImport leafUserCA []
      (by decide)
  exact ⟨h.1, (h.2.2.1 rfl).1, (h.2.2.1 rfl).2, h.2.2.2.2 rfl⟩

/-- An active host CA of the already-enrolled cluster `leaf`. -/
def hostLeafCA : CertAuthority :=
  { caType := .hostCA, domainName := "leaf", clusterName := "leaf",
    roles := [], roleMap := [], tlsKeyPairs := [] }

/-- An active user CA of the already-enrolled cluster `leaf`. -/
def userLeafCA : CertAuthority :=
  { caType := .userCA, domainName := "leaf", clusterName := "leaf",
    roles := [], roleMap := [], tlsKeyPairs := [] }

/-- The enabled descriptor of the already-enrolled cluster `leaf`. -/
def tcLeaf : TrustedCluster :=
  { name := "leaf", enabled := true, token := "tok", proxyAddress := "p",
    reverseTunnelAddress := "leaf-rt", roles := [], roleMap := [] }

/-- A backend in which both CAs of `leaf` are already active and no
reverse tunnel exists. -/
def presentState : BackendState :=
  { domainName := "root", activeCAs := [userLeafCA, hostLeafCA], inactiveCAs := [],
    trustedClusters := [tcLeaf], reverseTunnels := [], localRoles := [],
    tokens := [], auditEvents := [] }

/-- A backend in which both CAs of `leaf` sit in the deactivated
collection, so that activation succeeds. -/
def inactiveState : BackendState :=
  { presentState with activeCAs := [], inactiveCAs := [userLeafCA, hostLeafCA] }

/-- Counterexample to C2 as stated: with both CAs of the descriptor
already present in the active store (the branch in which the claim says
nothing further is needed, and in which the claim's only-if-absent
clause forbids tunnel creation), `ensureEnabled` succeeds without ever
consulting the handshake (the oracle refuses every request) and still
creates the reverse tunnel. -/
theorem ensureEnabled_creates_tunnel_when_cas_present :
    (ensureEnabled idleRemote presentState tcLeaf).err = none ∧
    (ensureEnabled idleRemote presentState tcLeaf).renamed = false ∧
    presentState.reverseTunnels = [] ∧
    (ensureEnabled idleRemote presentState tcLeaf).state.reverseTunnels
      = [{ name := "leaf", dialAddrs := ["leaf-rt"] }] ∧
    (ensureEnabled idleRemote presentState tcLeaf).state.activeCAs = presentState.activeCAs :=
  ⟨rfl, rfl, rfl, rfl, rfl⟩

/-- Claim C2 (amended): `ensureEnabled` follows the ordering: attempt to
activate both CAs; on not-found, read the descriptor's CAs; if they are
present, no trust establishment, rename or import occurs; only if they
are absent does it perform `establishTrust`, rename the descriptor when
the returned CA's cluster name differs (signalling `renamed = true`) and it
imports the CAs — but the reverse tunnel is created at the end of every
non-error path, not only in the establish branch. -/
theorem ensureEnabled_ordering (remote : Remote) (s s1 : BackendState)
    (tc : TrustedCluster) (e e2 e3 : Err) (ca0 : CertAuthority)
    (rest cas : List CertAuthority) :
    (activateCertAuthority s tc = (none, s1) →
      ensureEnabled remote s tc =
        { renamed := false, tc := tc, err := none, state := createReverseTunnel s1 tc }) ∧
    (activateCertAuthority s tc = (some e, s1) → e.isNotFound = true →
      getCertAuthorities s1 tc = .ok cas →
      ensureEnabled remote s tc =
        { renamed := false, tc := tc, err := none, state := createReverseTunnel s1 tc }) ∧
    (activateCertAuthority s tc = (some e, s1) → e.isNotFound = true →
      getCertAuthorities s1 tc = .error e2 → e2.isNotFound = true →
      establishTrust remote s1 tc = .error e3 →
      ensureEnabled remote s tc =
        { renamed := false, tc := tc, err := some e3, state := s1 }) ∧
    (activateCertAuthority s tc = (some e, s1) → e.isNotFound = true →
      getCertAuthorities s1 tc = .error e2 → e2.isNotFound = true →
      establishTrust remote s1 tc = .ok (ca0 :: rest) → ca0.clusterName = tc.name →
      ensureEnabled remote s tc =
        (match addCertAuthorities s1 tc (ca0 :: rest) with
         | (some e4, s2) => { renamed := false, tc := tc, err := some e4, state := s2 }
         | (none, s2) =>
           { renamed := false, tc := tc, err := none, state := createReverseTunnel s2 tc })) ∧
    (activateCertAuthority s tc = (some e, s1) → e.isNotFound = true →
      getCertAuthorities s1 tc = .error e2 → e2.isNotFound = true →
      establishTrust remote s1 tc = .ok (ca0 :: rest) → ca0.clusterName ≠ tc.name →
      ensureEnabled remote s tc =
        (match addCertAuthorities s1 { tc with name := ca0.clusterName } (ca0 :: rest) with
         | (some e4, s2) =>
           { renamed := true, tc := { tc with name := ca0.clusterName },
             err := some e4, state := s2 }
         | (none, s2) =>
           { renamed := true, tc := { tc with name := ca0.clusterName }, err := none,
             state := createReverseTunnel s2 { tc with name := ca0.clusterName } })) := by
  refine ⟨?_, ?_, ?_, ?_, ?_⟩
  · intro hact
    unfold ensureEnabled
    simp only [hact]
  · intro hact hnf hget
    unfold ensureEnabled
    simp only [hact, hnf, hget]
    rfl
  · intro hact hnf hget hnf2 hest
    unfold ensureEnabled
    simp only [hact, hnf, hget, hnf2, hest]
    rfl
  · intro hact hnf hget hnf2 hest heq
    unfold ensureEnabled
    simp only [hact, hnf, hget, hnf2, hest, heq]
    simp
  · intro hact hnf hget hnf2 hest hne
    unfold ensureEnabled
    simp only [hact, hnf, hget, hnf2, hest]
    simp [hne]

/-- Witness for C2: the activation-success branch, the CAs-present
branch, and the establish-with-rename branch, each on its concrete
backend. -/
theorem ensureEnabled_ordering_witness :
    ensureEnabled idleRemote inactiveState tcLeaf =
      { renamed := false, tc := tcLeaf, err := none,
        state := createReverseTunnel (activateCertAuthority inactiveState tcLeaf).2 tcLeaf } ∧
    ensureEnabled idleRemote presentState tcLeaf =
      { renamed := false, tc := tcLeaf, err := none,
        state := createReverseTunnel presentState tcLeaf } ∧
    ensureEnabled leafRemote rootState tcTemp =
      (match addCertAuthorities rootState { tcTemp with name := "leaf-east" }
          [leafHostCA, leafUserCA] with
       | (some e4, s2) =>
         { renamed := true, tc := { tcTemp with name := "leaf-east" },
           err := some e4, state := s2 }
       | (none, s2) =>
         { renamed := true, tc := { tcTemp with name := "leaf-east" }, err := none,
           state := createReverseTunnel s2 { tcTemp with name := "leaf-east" } }) :=
  ⟨(ensureEnabled_ordering idleRemote inactiveState
      (activateCertAuthority inactiveState tcLeaf).2 tcLeaf
      (.notFound "") (.notFound "") (.notFound "") leafHostCA [] []).1 rfl,
   (ensureEnabled_ordering idleRemote presentState presentState tcLeaf
      (.notFound "can not activate cert authority") (.notFound "") (.notFound "")
      leafHostCA [] [userLeafCA, hostLeafCA]).2.1 rfl rfl rfl,
   (ensureEnabled_ordering leafRemote rootState rootState tcTemp
      (.notFound "can not activate cert authority") (.notFound "cert authority not found")
      (.notFound "") leafHostCA [leafUserCA] []).2.2.2.2 rfl rfl rfl rfl rfl
      (by decide)⟩

/-- Folding `addRole` never changes the CA type. -/
theorem foldl_addRole_caType (l : List String) :
    ∀ ca : CertAuthority, (l.foldl CertAuthority.addRole ca).caType = ca.caType := by
  induction l with
  | nil => intro ca; rfl
  | cons r rest ih =>
    intro ca
    rw [List.foldl_cons, ih]
    unfold CertAuthority.addRole
    split <;> rfl

/-- Folding `addRole` never changes the domain name. -/
theorem foldl_addRole_domainName (l : List String) :
    ∀ ca : CertAuthority, (l.foldl CertAuthority.addRole ca).domainName = ca.domainName := by
  induction l with
  | nil => intro ca; rfl
  | cons r rest ih =>
    intro ca
    rw [List.foldl_cons, ih]
    unfold CertAuthority.addRole
    split <;> rfl

/-- The key under which an imported CA is inserted: the original CA
type, pinned to the descriptor's name. -/
theorem importCA_getID (tc : TrustedCluster) (ca : CertAuthority) :
    (importCA tc ca).getID = { caType := ca.caType, domainName := tc.name } := by
  unfold importCA CertAuthority.setName CertAuthority.getID
  by_cases hca : ca.caType = .userCA
  · simp [hca, foldl_addRole_caType, foldl_addRole_domainName]
  · simp [hca]

/-- Backend after the first enrollment of `leaf-east` (submitted under
the provisional name `temp`). -/
def call1State : BackendState :=
  (UpsertTrustedCluster leafRemote "admin" rootState tcTemp).2

/-- Counterexample to C3 as stated: enrolling the same descriptor twice
is not observationally equivalent to enrolling it once.  The first call
succeeds and pins the name to `leaf-east`; the second call — the rename
case, in which the submitted name `temp` matches no stored descriptor —
re-establishes trust and then hits the create-only CA import, failing
with already-exists (while leaving the backend unchanged). -/
theorem upsert_twice_not_equivalent_to_once :
    (UpsertTrustedCluster leafRemote "admin" rootState tcTemp).1
      = .ok { tcTemp with name := "leaf-east" } ∧
    (UpsertTrustedCluster leafRemote "admin" call1State tcTemp).1
      = .error (.alreadyExists "cert authority already exists") ∧
    (UpsertTrustedCluster leafRemote "admin" call1State tcTemp).2 = call1State :=
  ⟨rfl, rfl, rfl⟩

/-- Claim C3 (amended): repeating `UpsertTrustedCluster` with the same
descriptor leaves the backend state unchanged, but the repeated call is
not observationally equivalent to a single call: in the rename case the
repeat does not find the stored descriptor under the submitted name,
re-establishes trust, and fails with already-exists at the create-only
CA import. -/
theorem upsert_repeat_fails_already_exists (remote : Remote) (u : String)
    (s : BackendState) (tc : TrustedCluster) (ca0 : CertAuthority)
    (rest : List CertAuthority)
    (hfind : findExistingTC s tc.name = none)
    (hroles : checkLocalRoles s tc.roleMap = none)
    (hest : establishTrust remote s tc = .ok (ca0 :: rest))
    (hcol : s.activeCAs.any
        (fun c => decide (c.getID =
          { caType := ca0.caType, domainName := ca0.clusterName })) = true) :
    UpsertTrustedCluster remote u s tc =
      (.error (.alreadyExists "cert authority already exists"), s) := by
  unfold UpsertTrustedCluster
  simp only [hfind, hroles, hest]
  unfold addCertAuthorities CreateCertAuthority
  simp only [importCA_getID]
  rw [hcol]
  rfl

/-- Witness for C3: the concrete second call on the post-enrollment
backend. -/
theorem upsert_repeat_fails_already_exists_witness :
    UpsertTrustedCluster leafRemote "admin" call1State tcTemp =
      (.error (.alreadyExists "cert authority already exists"), call1State) :=
  upsert_repeat_fails_already_exists leafRemote "admin" call1State tcTemp leafHostCA
    [leafUserCA] rfl rfl rfl rfl

/-- The error accumulator of the ensure loop only ever grows by
appending: running the loop with a non-empty accumulator equals running
it fresh and prepending the old errors. -/
theorem ensureLoop_append (remote : Remote) (l : List TrustedCluster) :
    ∀ (s : BackendState) (errs : List Err),
      ensureLoop remote errs s l
        = (errs ++ (ensureLoop remote [] s l).1, (ensureLoop remote [] s l).2) := by
  induction l with
  | nil => intro s errs; simp [ensureLoop]
  | cons tc rest ih =>
    intro s errs
    unfold ensureLoop
    rcases hp : processTrustedCluster remote s tc with ⟨es, s1⟩
    simp only [hp]
    rw [ih s1 (errs ++ es), ih s1 ([] ++ es)]
    simp

/-- Claim C9: the ensure loop never aborts on a per-descriptor failure —
the errors of the head descriptor are concatenated with the errors of
the (still fully processed) remaining descriptors, the result is
returned as a single aggregate that is nil exactly when no errors were
collected, and a renamed descriptor is first upserted under the new name
and only then is the old record deleted, with a failure of the deletion
step appended to the error list rather than aborting. -/
theorem ensure_loop_accumulates_and_continues (remote : Remote) (s : BackendState)
    (tc : TrustedCluster) (rest : List TrustedCluster) :
    (ensureLoop remote [] s (tc :: rest)
      = ((processTrustedCluster remote s tc).1
           ++ (ensureLoop remote [] (processTrustedCluster remote s tc).2 rest).1,
         (ensureLoop remote [] (processTrustedCluster remote s tc).2 rest).2)) ∧
    (EnsureTrustedClusters remote s (tc :: rest)
      = (NewAggregate (ensureLoop remote [] s (tc :: rest)).1,
         (ensureLoop remote [] s (tc :: rest)).2)) ∧
    NewAggregate [] = none ∧
    (∀ es : List Err, es ≠ [] → NewAggregate es = some (.aggregate es)) ∧
    (tc.enabled = true → (ensureEnabled remote s tc).renamed = true →
      processTrustedCluster remote s tc =
        (match PresenceDeleteTrustedCluster
            (PresenceUpsertTrustedCluster (ensureEnabled remote s tc).state
               (ensureEnabled remote s tc).tc).2 tc.name with
         | (some e, s2) => ((ensureEnabled remote s tc).err.toList ++ [e], s2)
         | (none, s2) => ((ensureEnabled remote s tc).err.toList, s2))) := by
  refine ⟨?_, ?_, rfl, ?_, ?_⟩
  · rcases hp : processTrustedCluster remote s tc with ⟨es, s1⟩
    rw [ensureLoop]
    simp only [hp]
    rw [ensureLoop_append remote rest s1 ([] ++ es)]
    simp
  · unfold EnsureTrustedClusters
    simp only [List.isEmpty_cons, Bool.false_eq_true, if_false]
  · intro es hne
    unfold NewAggregate
    cases es with
    | nil => exact absurd rfl hne
    | cons e es => rfl
  · intro hen hren
    unfold processTrustedCluster
    rw [hen]
    simp only [hren]
    rcases hu : PresenceUpsertTrustedCluster (ensureEnabled remote s tc).state
        (ensureEnabled remote s tc).tc with ⟨stored, s1⟩
    simp only [hu]
    rfl

/-- Witness for C9: the loop decomposition on a two-descriptor list
headed by the renamed enrollment of `leaf-east`, and the rename-commit
ordering on that head descriptor. -/
theorem ensure_loop_accumulates_and_continues_witness :
    (ensureLoop leafRemote [] rootState (tcTemp :: [tcGhost])
      = ((processTrustedCluster leafRemote rootState tcTemp).1
           ++ (ensureLoop leafRemote []
                 (processTrustedCluster leafRemote rootState tcTemp).2 [tcGhost]).1,
         (ensureLoop leafRemote []
             (processTrustedCluster leafRemote rootState tcTemp).2 [tcGhost]).2)) ∧
    (processTrustedCluster leafRemote rootState tcTemp =
      (match PresenceDeleteTrustedCluster
          (PresenceUpsertTrustedCluster (ensureEnabled leafRemote rootState tcTemp).state
             (ensureEnabled leafRemote rootState tcTemp).tc).2 tcTemp.name with
       | (some e, s2) => ((ensureEnabled leafRemote rootState tcTemp).err.toList ++ [e], s2)
       | (none, s2) => ((ensureEnabled leafRemote rootState tcTemp).err.toList, s2))) :=
  ⟨(ensure_loop_accumulates_and_continues leafRemote rootState tcTemp [tcGhost]).1,
   (ensure_loop_accumulates_and_continues leafRemote rootState tcTemp [tcGhost]).2.2.2.2
     rfl rfl⟩

end Teleport
